import Mathlib

/-!
Shallow embedding of `app/components/@settings/tabs/connections/components/PushToGitHubDialog.tsx`.

The component is a React dialog whose logic is built from pure computations over its state
(filter expressions, key-navigation arithmetic, a pagination loop) together with network
effects.  Network responses and the externally supplied `onPush` callback are modelled as
explicit parameters (`PageResult`, `Except JsError _`), and each handler becomes a pure
function from its inputs to an outcome or an updated state.  JavaScript string operations
(`trim`, `toLowerCase`, `includes`) are embedded as computable functions over `List Char`.
-/

/-- Whitespace characters removed by the JS `String.prototype.trim` (restricted to the
ASCII whitespace actually relevant to this dialog's inputs). -/
def jsWhitespace (c : Char) : Bool :=
  c = ' ' || c = '\t' || c = '\n' || c = '\r'

/-- Embedding of the JS `String.prototype.trim`: drop whitespace from both ends. -/
def jsTrim (s : String) : String :=
  String.mk (List.reverse (List.dropWhile jsWhitespace
    (List.reverse (List.dropWhile jsWhitespace s.data))))

/-- Embedding of the JS `String.prototype.toLowerCase` (ASCII case folding). -/
def jsToLower (s : String) : String :=
  String.mk (s.data.map Char.toLower)

/-- Embedding of the JS `String.prototype.includes`: `sub` occurs contiguously in `s`. -/
def strIncludes (s sub : String) : Bool :=
  decide (sub.data <:+: s.data)

/-- The `GitHubRepo` interface of the source file (lines 29-40).  The source field
`private` is a Lean keyword and is rendered as `priv`. -/
structure GitHubRepo where
  name : String
  full_name : String
  html_url : String
  description : String
  stargazers_count : Nat
  forks_count : Nat
  default_branch : String
  updated_at : String
  language : String
  priv : Bool
deriving DecidableEq, Repr

/-- Lines 376-379: the repository list rendered in the combobox dropdown.  A blank
(trimmed-empty) query yields the whole `recentRepos` list; otherwise the repos whose
name contains the (untrimmed) query case-insensitively. -/
def filteredReposList (recentRepos : List GitHubRepo) (repoSearchQuery : String) :
    List GitHubRepo :=
  if jsTrim repoSearchQuery = "" then recentRepos
  else recentRepos.filter (fun repo =>
    strIncludes (jsToLower repo.name) (jsToLower repoSearchQuery))

/-- Lines 381-383: the "Create new repository" affordance flag: the trimmed query is
nonempty and no repository name equals it case-insensitively. -/
def showCreateNewRepo (recentRepos : List GitHubRepo) (repoSearchQuery : String) : Bool :=
  (jsTrim repoSearchQuery != "") &&
    !(recentRepos.any (fun repo =>
      jsToLower repo.name == jsToLower (jsTrim repoSearchQuery)))

/-- Lines 474-477: the branch list rendered in the branch combobox dropdown. -/
def filteredBranchesList (branchOptions : List String) (branchSearchQuery : String) :
    List String :=
  if jsTrim branchSearchQuery = "" then branchOptions
  else branchOptions.filter (fun b =>
    strIncludes (jsToLower b) (jsToLower branchSearchQuery))

/-- Lines 479-480: the "Create new branch" affordance flag. -/
def showCreateNewBranch (branchOptions : List String) (branchSearchQuery : String) : Bool :=
  (jsTrim branchSearchQuery != "") &&
    !(branchOptions.any (fun b =>
      jsToLower b == jsToLower (jsTrim branchSearchQuery)))

/-- Lines 402/412 (and 499/509): the maximal focusable row index of a combobox dropdown:
the filtered-list length when the "create new" row is shown, and length minus one
otherwise (JS arithmetic, so `-1` for an empty list without the extra row). -/
def rowMax (showCreateNew : Bool) (listLength : Nat) : Int :=
  if showCreateNew then (listLength : Int) else (listLength : Int) - 1

/-- Lines 401-404 (and 498-501): the focused index after an ArrowDown key event. -/
def arrowDownIndex (prev max : Int) : Int :=
  if prev + 1 > max then 0 else prev + 1

/-- Lines 411-414 (and 508-511): the focused index after an ArrowUp key event. -/
def arrowUpIndex (prev max : Int) : Int :=
  if prev - 1 < 0 then max else prev - 1

/-- The maximal focusable row index of the repository combobox, as computed from the
component state feeding `handleRepoKeyDown`. -/
def repoRowMax (recentRepos : List GitHubRepo) (repoSearchQuery : String) : Int :=
  rowMax (showCreateNewRepo recentRepos repoSearchQuery)
    (filteredReposList recentRepos repoSearchQuery).length

/-- The maximal focusable row index of the branch combobox, as computed from the
component state feeding `handleBranchKeyDown`. -/
def branchRowMax (branchOptions : List String) (branchSearchQuery : String) : Int :=
  rowMax (showCreateNewBranch branchOptions branchSearchQuery)
    (filteredBranchesList branchOptions branchSearchQuery).length

/-- The possible observable results of one page request inside `fetchRecentRepos`
(lines 173-237): the HTTP response is not ok, the body fails to parse as JSON, or a
list of repositories is obtained. -/
inductive PageResult where
  | httpError (status : Nat)
  | parseFailure
  | ok (repos : List GitHubRepo)
deriving DecidableEq, Repr

/-- The observable outcome of `fetchRecentRepos` (lines 157-244): `success repos` is
the `setRecentRepos allRepos` on line 238, `httpError` is the early `return` of the
non-ok branch (line 217, leaving `recentRepos` untouched), `parseFailure` is the JSON
parse failure (line 233, which sets `recentRepos` to `[]`), and `outOfFuel` is the
artificial cut-off of the fuel-indexed embedding of the unbounded `while` loop. -/
inductive FetchOutcome where
  | success (repos : List GitHubRepo)
  | httpError (status : Nat)
  | parseFailure
  | outOfFuel
deriving DecidableEq, Repr

/-- Embedding of the `while (hasMore)` loop of `fetchRecentRepos` (lines 173-237).
`pages` gives the result of requesting each page number; `acc` is `allRepos`; `req`
records the page numbers requested so far, in order.  The loop body appends the page to
`allRepos` and continues with `page + 1` exactly when the page held 100 or more items.
The `fuel` parameter is an artifact of embedding a loop with no intrinsic bound. -/
def fetchLoop (pages : Nat → PageResult) :
    Nat → Nat → List GitHubRepo → List Nat → FetchOutcome × List Nat
  | 0, _, _, req => (FetchOutcome.outOfFuel, req)
  | fuel + 1, page, acc, req =>
    match pages page with
    | PageResult.httpError s => (FetchOutcome.httpError s, req ++ [page])
    | PageResult.parseFailure => (FetchOutcome.parseFailure, req ++ [page])
    | PageResult.ok repos =>
      if repos.length < 100 then (FetchOutcome.success (acc ++ repos), req ++ [page])
      else fetchLoop pages fuel (page + 1) (acc ++ repos) (req ++ [page])

/-- `fetchRecentRepos` starts the pagination loop at page 1 with empty `allRepos`
(lines 169-171). -/
def fetchRecentRepos (pages : Nat → PageResult) (fuel : Nat) : FetchOutcome × List Nat :=
  fetchLoop pages fuel 1 [] []

/-- A page result on which the loop stops: an HTTP error, a parse failure, or a page of
fewer than 100 repositories. -/
def isStopPage : PageResult → Bool
  | PageResult.httpError _ => true
  | PageResult.parseFailure => true
  | PageResult.ok repos => decide (repos.length < 100)

/-- Concatenation of `n` consecutive pages starting at page `start`, in fetch order. -/
def segConcat (L : Nat → List GitHubRepo) (start : Nat) : Nat → List GitHubRepo
  | 0 => []
  | n + 1 => L start ++ segConcat L (start + 1) n

/-- The stored `github_connection` read from local storage (lines 250, 349).  JS
falsiness of a missing or empty token is modelled by `token = ""`; a missing `user`
object by `user = none` (only its `login` field is ever used). -/
structure StoredConnection where
  token : String
  user : Option String
deriving DecidableEq, Repr

/-- A thrown JS error as inspected by the handlers: `status` (compared against 404 on
lines 294 and 299) and `message` (read with a `||` fallback on lines 332 and 361,
where an absent message is modelled by `""`, which is falsy like `undefined`). -/
structure JsError where
  status : Nat
  message : String
deriving DecidableEq, Repr

/-- Line 252: `!connection?.token || !connection?.user` is falsy-checked. -/
def connectionOk : Option StoredConnection → Bool
  | none => false
  | some c => (c.token != "") && c.user.isSome

/-- A character allowed by the branch-name regex of line 262: ASCII letters, digits,
dot, underscore, dash or slash. -/
def branchNameChar (c : Char) : Bool :=
  c.isAlpha || c.isDigit || c = '.' || c = '_' || c = '-' || c = '/'

/-- Line 262: the branch-name regex test: the string is nonempty and every character is
an allowed branch-name character. -/
def branchNameRegexOk (b : String) : Bool :=
  (b != "") && b.data.all branchNameChar

/-- Line 361 and line 332: `error.message || fallback`. -/
def jsErrorMessage (e : JsError) (fallback : String) : String :=
  if e.message = "" then fallback else e.message

/-- Lines 276-302: the nested try/catch computing `repoExists`, `branchExists` and
`repoData`.  `repoGet` models `octokit.repos.get`, `refGet` models `octokit.git.getRef`
(only requested when the repo lookup succeeded).  A 404 from either lookup is swallowed
(the flag stays false); any other error propagates to the outer catch. -/
def checkRepoAndBranch (repoGet : Except JsError GitHubRepo)
    (refGet : Except JsError Unit) :
    Except JsError (Bool × Bool × Option GitHubRepo) :=
  match repoGet with
  | Except.error e => if e.status = 404 then Except.ok (false, false, none) else Except.error e
  | Except.ok repo =>
    match refGet with
    | Except.error e =>
      if e.status = 404 then Except.ok (true, false, some repo) else Except.error e
    | Except.ok _ => Except.ok (true, true, some repo)

/-- Lines 306-320: the confirmation-dialog message built when the confirm branch is
taken. -/
def confirmMessage (repoName branchName : String) (branchExists : Bool)
    (repoData : Option GitHubRepo) (isPrivate : Bool) : String :=
  let msg := "You are pushing to branch \"" ++ jsTrim branchName ++ "\" in repo \"" ++
    repoName ++ "\"."
  let msg := msg ++
    (if branchExists then
      " Existing files with the same name will be updated. No files will be deleted."
    else " A new branch will be created.")
  msg ++
    (match repoData with
     | some repo =>
       if repo.priv != isPrivate then
         (if isPrivate then " This will also change the repository from public to private."
          else " This will also change the repository from private to public.")
       else ""
     | none => "")

/-- The distinct ways `handleSubmit` (lines 246-334) can end: an early validation error
(lines 252-265, before any API call), the confirmation dialog (lines 320-324), the
commit-message dialog (line 328), or the outer catch setting the error message
(lines 330-333). -/
inductive SubmitOutcome where
  | validationError (msg : String)
  | confirm (msg : String)
  | commit
  | checkError (msg : String)
deriving DecidableEq, Repr

/-- Embedding of `handleSubmit` (lines 246-334).  The GitHub API lookups are passed in
as `repoGet`/`refGet`; the returned outcome names which dialog or error message the
handler produces. -/
def handleSubmit (conn : Option StoredConnection) (repoName branchName : String)
    (isPrivate : Bool) (repoGet : Except JsError GitHubRepo)
    (refGet : Except JsError Unit) : SubmitOutcome :=
  if !(connectionOk conn) then
    SubmitOutcome.validationError
      "Please connect your GitHub account in Settings > Connections first"
  else if jsTrim repoName = "" then
    SubmitOutcome.validationError "Repository name is required"
  else if jsTrim branchName = "" || !(branchNameRegexOk branchName) then
    SubmitOutcome.validationError "Please enter a valid branch name."
  else
    match checkRepoAndBranch repoGet refGet with
    | Except.error e => SubmitOutcome.checkError (jsErrorMessage e "Failed to check repository.")
    | Except.ok (repoExists, branchExists, repoData) =>
      if repoExists && (branchExists || repoData.any (fun r => r.priv != isPrivate)) then
        SubmitOutcome.confirm (confirmMessage repoName branchName branchExists repoData isPrivate)
      else
        SubmitOutcome.commit

/-- The `useState` cells of the component (lines 43-67), with `user` reduced to its
`login` (the only field the logic reads). -/
structure DialogState where
  repoName : String
  branchName : String
  branchOptions : List String
  isPrivate : Bool
  isLoading : Bool
  user : Option String
  recentRepos : List GitHubRepo
  filteredRepos : List GitHubRepo
  repoSearchQuery : String
  isRepoDropdownOpen : Bool
  focusedRepoIndex : Int
  branchSearchQuery : String
  isBranchDropdownOpen : Bool
  focusedBranchIndex : Int
  showSuccessDialog : Bool
  createdRepoUrl : String
  showConfirmDialog : Bool
  showCommitDialog : Bool
  commitMessage : String
  confirmDialogMessage : String
  errorMessage : String
deriving DecidableEq, Repr

/-- The initial values of the `useState` cells (lines 43-67). -/
def initialState : DialogState where
  repoName := ""
  branchName := "main"
  branchOptions := []
  isPrivate := false
  isLoading := false
  user := none
  recentRepos := []
  filteredRepos := []
  repoSearchQuery := ""
  isRepoDropdownOpen := false
  focusedRepoIndex := -1
  branchSearchQuery := ""
  isBranchDropdownOpen := false
  focusedBranchIndex := -1
  showSuccessDialog := false
  createdRepoUrl := ""
  showConfirmDialog := false
  showCommitDialog := false
  commitMessage := "Initial commit"
  confirmDialogMessage := ""
  errorMessage := ""

/-- Embedding of `handleCommitProceed` (lines 343-365).  The `onPush` call is passed in
as `pushResult`: `Except.ok url` models a resolved promise, `Except.error e` a rejected
one.  The function applies the handler's state updates in program order (including the
`finally` clearing of the loading flag). -/
def handleCommitProceed (s : DialogState) (pushResult : Except JsError String) :
    DialogState :=
  let s := { s with showCommitDialog := false, isLoading := true, errorMessage := "" }
  let s :=
    match pushResult with
    | Except.ok repoUrl => { s with createdRepoUrl := repoUrl, showSuccessDialog := true }
    | Except.error e =>
      { s with errorMessage := jsErrorMessage e "Failed to push to GitHub." }
  { s with isLoading := false }

/-- The reset effect on dialog close (lines 574-592): runs whenever `isOpen` turns
false and overwrites the listed cells with their initial values. -/
def resetOnClose (s : DialogState) : DialogState :=
  { s with
    repoName := ""
    repoSearchQuery := ""
    branchName := "main"
    branchSearchQuery := ""
    isRepoDropdownOpen := false
    isBranchDropdownOpen := false
    focusedRepoIndex := -1
    focusedBranchIndex := -1
    errorMessage := ""
    showSuccessDialog := false
    createdRepoUrl := ""
    showConfirmDialog := false
    showCommitDialog := false
    commitMessage := "Initial commit"
    confirmDialogMessage := "" }

/-- Line 648: the success dialog prints `createdRepoUrl` as the repository URL. -/
def successDialogRepoUrl (s : DialogState) : String :=
  s.createdRepoUrl

/-- Lines 667-682: the rows rendered under the success dialog's "Pushed Files" heading:
one row per element of the `filteredRepos` state, each showing `repo.name`. -/
def successDialogPushedFilesRows (s : DialogState) : List String :=
  s.filteredRepos.map (fun repo => repo.name)

/-- A sample repository record used to instantiate witnesses at concrete inputs. -/
def mkRepo (name full_name : String) (priv : Bool) : GitHubRepo :=
  ⟨name, full_name, "", "", 0, 0, "main", "", "", priv⟩

/-- A concrete component state reached just before a push: the commit dialog is open and
`filteredRepos` holds two repositories (as populated by the repo-search effect). -/
def pushedState : DialogState :=
  { initialState with
    repoName := "proj"
    showCommitDialog := true
    filteredRepos := [mkRepo "alpha-repo" "octo/alpha-repo" false,
      mkRepo "beta-repo" "octo/beta-repo" true] }

/-- C10: whenever the dialog transitions to closed, the reset effect restores the
enumerated form and sub-dialog state to its initial values: repository name and both
search queries empty, branch name `main`, commit message `Initial commit`, both
dropdowns closed, both focus indices `-1`, and the error message, success dialog
(including its URL), confirmation dialog (including its message) and commit-message
dialog all cleared. -/
theorem resetOnClose_resets_form_state (s : DialogState) :
    (resetOnClose s).repoName = "" ∧
    (resetOnClose s).repoSearchQuery = "" ∧
    (resetOnClose s).branchSearchQuery = "" ∧
    (resetOnClose s).branchName = "main" ∧
    (resetOnClose s).commitMessage = "Initial commit" ∧
    (resetOnClose s).isRepoDropdownOpen = false ∧
    (resetOnClose s).isBranchDropdownOpen = false ∧
    (resetOnClose s).focusedRepoIndex = -1 ∧
    (resetOnClose s).focusedBranchIndex = -1 ∧
    (resetOnClose s).errorMessage = "" ∧
    (resetOnClose s).showSuccessDialog = false ∧
    (resetOnClose s).createdRepoUrl = "" ∧
    (resetOnClose s).showConfirmDialog = false ∧
    (resetOnClose s).showCommitDialog = false ∧
    (resetOnClose s).confirmDialogMessage = "" :=
  ⟨rfl, rfl, rfl, rfl, rfl, rfl, rfl, rfl, rfl, rfl, rfl, rfl, rfl, rfl, rfl⟩

/-- C6: the combobox filter is a client-side substring filter: for a blank
(trimmed-empty) query each filtered list equals the full list; for a non-blank query
the filtered repository list consists of exactly those repositories whose name contains
the query as a case-insensitive substring, kept in their original order (a sublist of
`recentRepos`), and the filtered branch list of exactly those branch names containing
the query case-insensitively, in their original order. -/
theorem comboboxFilter_substring_spec (repos : List GitHubRepo)
    (branches : List String) (q : String) :
    (jsTrim q = "" →
      filteredReposList repos q = repos ∧ filteredBranchesList branches q = branches) ∧
    (jsTrim q ≠ "" →
      (filteredReposList repos q).Sublist repos ∧
      (∀ r, r ∈ filteredReposList repos q ↔
        r ∈ repos ∧ (jsToLower q).data <:+: (jsToLower r.name).data) ∧
      (filteredBranchesList branches q).Sublist branches ∧
      (∀ b, b ∈ filteredBranchesList branches q ↔
        b ∈ branches ∧ (jsToLower q).data <:+: (jsToLower b).data)) := by
  refine ⟨fun h => ⟨?_, ?_⟩, fun h => ⟨?_, ?_, ?_, ?_⟩⟩
  · rw [filteredReposList, if_pos h]
  · rw [filteredBranchesList, if_pos h]
  · rw [filteredReposList, if_neg h]
    exact List.filter_sublist repos
  · intro r
    rw [filteredReposList, if_neg h, List.mem_filter]
    simp [strIncludes]
  · rw [filteredBranchesList, if_neg h]
    exact List.filter_sublist branches
  · intro b
    rw [filteredBranchesList, if_neg h, List.mem_filter]
    simp [strIncludes]

/-- Witness for C6 at a concrete input: the branch filter for the query `AI` over
`[main, dev]` is an order-preserving sublist. -/
theorem comboboxFilter_substring_spec_witness :
    (filteredBranchesList ["main", "dev"] "AI").Sublist ["main", "dev"] :=
  ((comboboxFilter_substring_spec [] ["main", "dev"] "AI").2 (by decide)).2.2.1

/-- C5: for every query with non-blank trimmed content, the create-new affordance of
each combobox is shown exactly when the query matches nothing in the respective option
list, where an option matches the query when its name equals the trimmed query
case-insensitively (the notion tested by the affordance, which offers to create an
option with exactly that name). -/
theorem showCreateNew_iff_no_match (repos : List GitHubRepo) (branches : List String)
    (q : String) (hq : jsTrim q ≠ "") :
    (showCreateNewRepo repos q = true ↔
      ∀ r ∈ repos, jsToLower r.name ≠ jsToLower (jsTrim q)) ∧
    (showCreateNewBranch branches q = true ↔
      ∀ b ∈ branches, jsToLower b ≠ jsToLower (jsTrim q)) := by
  constructor
  · rw [showCreateNewRepo]
    simp [hq]
  · rw [showCreateNewBranch]
    simp [hq]

/-- Witness for C5 at a concrete input: with the sole branch `main` and query `feat`,
the create-new-branch affordance is shown. -/
theorem showCreateNew_iff_no_match_witness :
    showCreateNewBranch ["main"] "feat" = true :=
  ((showCreateNew_iff_no_match [] ["main"] "feat" (by decide)).2).mpr (by decide)

/-- C9 counterexample: with the repository dropdown open over an empty filtered list and
no create-new row (blank query, no repositories), `max` is `-1`, and ArrowDown from the
initial focus `-1` produces index `0`, which does not lie in `[0, max]` — the claim as
stated fails at this input. -/
theorem arrowNav_range_counterexample :
    ¬(0 ≤ arrowDownIndex (-1) (repoRowMax [] "") ∧
      arrowDownIndex (-1) (repoRowMax [] "") ≤ repoRowMax [] "") := by
  decide

/-- C9 (amended): provided the dropdown shows at least one focusable row (so `max ≥ 0`)
and the previous focus index lies in `[-1, max]`, every ArrowDown or ArrowUp key event
yields a focus index in `[0, max]`; ArrowDown from `max` wraps to `0`, and ArrowUp from
`0` or from the initial `-1` wraps to `max`. -/
theorem arrowNav_in_range (showNew : Bool) (len : Nat) (prev : Int)
    (hmax : 0 ≤ rowMax showNew len) (hlo : -1 ≤ prev)
    (hhi : prev ≤ rowMax showNew len) :
    (0 ≤ arrowDownIndex prev (rowMax showNew len) ∧
      arrowDownIndex prev (rowMax showNew len) ≤ rowMax showNew len) ∧
    (0 ≤ arrowUpIndex prev (rowMax showNew len) ∧
      arrowUpIndex prev (rowMax showNew len) ≤ rowMax showNew len) ∧
    arrowDownIndex (rowMax showNew len) (rowMax showNew len) = 0 ∧
    arrowUpIndex 0 (rowMax showNew len) = rowMax showNew len ∧
    arrowUpIndex (-1) (rowMax showNew len) = rowMax showNew len := by
  generalize rowMax showNew len = M at hmax hhi ⊢
  unfold arrowDownIndex arrowUpIndex
  split_ifs <;> omega

/-- Witness for C9's amended theorem at a concrete input: a three-row list without the
create-new row, previous focus on the last row. -/
theorem arrowNav_in_range_witness :
    (0 ≤ arrowDownIndex 2 (rowMax false 3) ∧
      arrowDownIndex 2 (rowMax false 3) ≤ rowMax false 3) ∧
    (0 ≤ arrowUpIndex 2 (rowMax false 3) ∧
      arrowUpIndex 2 (rowMax false 3) ≤ rowMax false 3) ∧
    arrowDownIndex (rowMax false 3) (rowMax false 3) = 0 ∧
    arrowUpIndex 0 (rowMax false 3) = rowMax false 3 ∧
    arrowUpIndex (-1) (rowMax false 3) = rowMax false 3 :=
  arrowNav_in_range false 3 2 (by decide) (by decide) (by decide)

/-- C7: when the `onPush` callback rejects, `handleCommitProceed` sets the inline error
message to the error's message (or `Failed to push to GitHub.` when it is absent), the
success dialog stays hidden, and the loading flag ends up cleared. -/
theorem handleCommitProceed_rejection (s : DialogState) (e : JsError)
    (hs : s.showSuccessDialog = false) :
    (handleCommitProceed s (Except.error e)).errorMessage =
      (if e.message = "" then "Failed to push to GitHub." else e.message) ∧
    (handleCommitProceed s (Except.error e)).showSuccessDialog = false ∧
    (handleCommitProceed s (Except.error e)).isLoading = false :=
  ⟨rfl, hs, rfl⟩

/-- Witness for C7 at a concrete input: a rejection with message `boom` from the
commit-dialog state. -/
theorem handleCommitProceed_rejection_witness :
    (handleCommitProceed { initialState with showCommitDialog := true }
        (Except.error ⟨500, "boom"⟩)).errorMessage =
      (if ("boom" : String) = "" then "Failed to push to GitHub." else "boom") ∧
    (handleCommitProceed { initialState with showCommitDialog := true }
        (Except.error ⟨500, "boom"⟩)).showSuccessDialog = false ∧
    (handleCommitProceed { initialState with showCommitDialog := true }
        (Except.error ⟨500, "boom"⟩)).isLoading = false :=
  handleCommitProceed_rejection { initialState with showCommitDialog := true }
    ⟨500, "boom"⟩ rfl

/-- C2 (code bug): after `onPush` resolves, the success dialog opens and shows the
returned repository URL, but the rows rendered under its own "Pushed Files" heading are
the names of the repositories held in the `filteredRepos` state (here `alpha-repo` and
`beta-repo`), not the files that were pushed: the component never receives a pushed-file
list (`onPush` returns only the URL string), so the heading contradicts the data it
labels. -/
theorem successDialog_rows_are_repositories :
    (handleCommitProceed pushedState
        (Except.ok "https://github.com/octo/proj")).showSuccessDialog = true ∧
    successDialogRepoUrl (handleCommitProceed pushedState
        (Except.ok "https://github.com/octo/proj")) = "https://github.com/octo/proj" ∧
    successDialogPushedFilesRows (handleCommitProceed pushedState
        (Except.ok "https://github.com/octo/proj")) = ["alpha-repo", "beta-repo"] :=
  ⟨rfl, rfl, rfl⟩

/-- C8: `handleSubmit` validates before any GitHub API call: with a missing or invalid
stored connection, a blank (trimmed) repository name, or a blank or regex-invalid
branch name, it returns the corresponding validation error — and does so for every
possible API response, so the API is never consulted and neither the confirmation nor
the commit-message dialog opens. -/
theorem handleSubmit_validation (conn : Option StoredConnection)
    (repoName branchName : String) (isPrivate : Bool)
    (repoGet : Except JsError GitHubRepo) (refGet : Except JsError Unit) :
    (connectionOk conn = false →
      handleSubmit conn repoName branchName isPrivate repoGet refGet =
        SubmitOutcome.validationError
          "Please connect your GitHub account in Settings > Connections first") ∧
    (connectionOk conn = true → jsTrim repoName = "" →
      handleSubmit conn repoName branchName isPrivate repoGet refGet =
        SubmitOutcome.validationError "Repository name is required") ∧
    (connectionOk conn = true → jsTrim repoName ≠ "" →
      (jsTrim branchName = "" ∨ branchNameRegexOk branchName = false) →
      handleSubmit conn repoName branchName isPrivate repoGet refGet =
        SubmitOutcome.validationError "Please enter a valid branch name.") := by
  refine ⟨fun h => ?_, fun h1 h2 => ?_, fun h1 h2 h3 => ?_⟩
  · simp [handleSubmit, h]
  · simp [handleSubmit, h1, h2]
  · rcases h3 with h3 | h3 <;> simp [handleSubmit, h1, h2, h3]

/-- Witness for C8 at a concrete input: a connected account, a nonempty repository name
and the branch name `bad branch` (a space fails the regex) yield the branch validation
error even though both API lookups would succeed. -/
theorem handleSubmit_validation_witness :
    handleSubmit (some ⟨"tok", some "octo"⟩) "proj" "bad branch" false
      (Except.ok (mkRepo "proj" "octo/proj" false)) (Except.ok ()) =
      SubmitOutcome.validationError "Please enter a valid branch name." :=
  (handleSubmit_validation (some ⟨"tok", some "octo"⟩) "proj" "bad branch" false
    (Except.ok (mkRepo "proj" "octo/proj" false)) (Except.ok ())).2.2
    (by decide) (by decide) (Or.inr (by decide))

/-- C1: once validation passed and the repo/branch existence check completed without a
thrown error, `handleSubmit` opens the confirmation dialog exactly when the repository
exists and either the branch exists or the repository's stored `private` flag differs
from the selected `isPrivate` value; in every other case it proceeds directly to the
commit-message dialog. -/
theorem handleSubmit_confirm_iff (conn : Option StoredConnection)
    (repoName branchName : String) (isPrivate : Bool)
    (repoGet : Except JsError GitHubRepo) (refGet : Except JsError Unit)
    (repoExists branchExists : Bool) (repoData : Option GitHubRepo)
    (hconn : connectionOk conn = true)
    (hrn : jsTrim repoName ≠ "")
    (hbn : jsTrim branchName ≠ "")
    (hre : branchNameRegexOk branchName = true)
    (hchk : checkRepoAndBranch repoGet refGet =
      Except.ok (repoExists, branchExists, repoData)) :
    ((∃ m, handleSubmit conn repoName branchName isPrivate repoGet refGet =
        SubmitOutcome.confirm m) ↔
      repoExists = true ∧ (branchExists = true ∨
        repoData.any (fun r => r.priv != isPrivate) = true)) ∧
    (¬(repoExists = true ∧ (branchExists = true ∨
        repoData.any (fun r => r.priv != isPrivate) = true)) →
      handleSubmit conn repoName branchName isPrivate repoGet refGet =
        SubmitOutcome.commit) := by
  have hb : (repoExists && (branchExists ||
      repoData.any (fun r => r.priv != isPrivate))) = true ↔
      repoExists = true ∧ (branchExists = true ∨
        repoData.any (fun r => r.priv != isPrivate) = true) := by
    simp [Bool.and_eq_true, Bool.or_eq_true]
  have hstep : handleSubmit conn repoName branchName isPrivate repoGet refGet =
      (if repoExists && (branchExists || repoData.any (fun r => r.priv != isPrivate))
       then SubmitOutcome.confirm
         (confirmMessage repoName branchName branchExists repoData isPrivate)
       else SubmitOutcome.commit) := by
    simp [handleSubmit, hconn, hrn, hbn, hre, hchk]
  by_cases hc : repoExists = true ∧ (branchExists = true ∨
      repoData.any (fun r => r.priv != isPrivate) = true)
  · rw [hstep, if_pos (hb.mpr hc)]
    exact ⟨⟨fun _ => hc, fun _ => ⟨_, rfl⟩⟩, fun hn => absurd hc hn⟩
  · rw [hstep, if_neg (fun hcb => hc (hb.mp hcb))]
    refine ⟨⟨fun hm => ?_, fun hp => absurd hp hc⟩, fun _ => rfl⟩
    obtain ⟨m, hm⟩ := hm
    exact SubmitOutcome.noConfusion hm

/-- Witness for C1 at a concrete input: the repository exists with matching visibility
and the branch lookup returns 404, so the handler goes straight to the commit-message
dialog. -/
theorem handleSubmit_confirm_iff_witness :
    handleSubmit (some ⟨"tok", some "octo"⟩) "proj" "main" false
      (Except.ok (mkRepo "proj" "octo/proj" false)) (Except.error ⟨404, "Not Found"⟩) =
      SubmitOutcome.commit :=
  (handleSubmit_confirm_iff (some ⟨"tok", some "octo"⟩) "proj" "main" false
    (Except.ok (mkRepo "proj" "octo/proj" false)) (Except.error ⟨404, "Not Found"⟩)
    true false (some (mkRepo "proj" "octo/proj" false))
    (by decide) (by decide) (by decide) (by decide) rfl).2 (by decide)

/-- Unrolling of the pagination loop when every requested page succeeds: with the first
short page (fewer than 100 repositories) at offset `m` from `start` and every earlier
page full, the loop returns the accumulator extended by the pages in fetch order, having
requested exactly the consecutive pages `start, …, start + m`. -/
theorem fetchLoop_all_ok (L : Nat → List GitHubRepo) :
    ∀ (m fuel start : Nat) (acc : List GitHubRepo) (req : List Nat),
      m < fuel → (L (start + m)).length < 100 →
      (∀ i, i < m → 100 ≤ (L (start + i)).length) →
      fetchLoop (fun k => PageResult.ok (L k)) fuel start acc req =
        (FetchOutcome.success (acc ++ segConcat L start (m + 1)),
          req ++ List.range' start (m + 1)) := by
  intro m
  induction m with
  | zero =>
    intro fuel start acc req hf hstop _
    obtain ⟨f, rfl⟩ : ∃ f, fuel = f + 1 := ⟨fuel - 1, by omega⟩
    rw [Nat.add_zero] at hstop
    simp only [fetchLoop]
    rw [if_pos hstop]
    simp [segConcat, List.range'_one]
  | succ n ih =>
    intro fuel start acc req hf hstop hfull
    obtain ⟨f, rfl⟩ : ∃ f, fuel = f + 1 := ⟨fuel - 1, by omega⟩
    have h0 : 100 ≤ (L start).length := by
      have := hfull 0 (by omega)
      simpa using this
    have hstop' : (L (start + 1 + n)).length < 100 := by
      have e : start + 1 + n = start + (n + 1) := by omega
      rw [e]; exact hstop
    have hfull' : ∀ i, i < n → 100 ≤ (L (start + 1 + i)).length := by
      intro i hi
      have e : start + 1 + i = start + (i + 1) := by omega
      rw [e]; exact hfull (i + 1) (by omega)
    simp only [fetchLoop]
    rw [if_neg (by omega)]
    rw [ih f (start + 1) (acc ++ L start) (req ++ [start]) (by omega) hstop' hfull']
    simp [segConcat, List.append_assoc, List.range'_succ]

/-- C3: when every page request succeeds, `fetchRecentRepos` sets `recentRepos` to the
concatenation of the pages in the order they were fetched (page 1 first), each page's
elements kept in the order the API returned them.  `N` is the offset of the first page
shorter than 100 items; `fuel` bounds the unbounded `while` loop of the embedding. -/
theorem fetchRecentRepos_concat_of_all_ok (L : Nat → List GitHubRepo) (N fuel : Nat)
    (hstop : (L (1 + N)).length < 100)
    (hfull : ∀ i, i < N → 100 ≤ (L (1 + i)).length)
    (hfuel : N < fuel) :
    (fetchRecentRepos (fun k => PageResult.ok (L k)) fuel).1 =
      FetchOutcome.success (segConcat L 1 (N + 1)) := by
  unfold fetchRecentRepos
  rw [fetchLoop_all_ok L N fuel 1 [] [] hfuel hstop hfull]
  simp

/-- Witness for C3 at a concrete input: page 1 holds exactly 100 repositories and page 2
is empty, so the fetch succeeds with the two pages concatenated in order. -/
theorem fetchRecentRepos_concat_of_all_ok_witness :
    (fetchRecentRepos
        (fun k => PageResult.ok
          (if k = 1 then List.replicate 100 (mkRepo "w" "octo/w" false) else [])) 2).1 =
      FetchOutcome.success
        (segConcat
          (fun k => if k = 1 then List.replicate 100 (mkRepo "w" "octo/w" false) else [])
          1 2) :=
  fetchRecentRepos_concat_of_all_ok
    (fun k => if k = 1 then List.replicate 100 (mkRepo "w" "octo/w" false) else [])
    1 2 (by norm_num)
    (by
      intro i hi
      have h : i = 0 := by omega
      subst h
      norm_num)
    (by omega)

/-- Progress of the pagination loop: a stopping page (HTTP error, parse failure, or a
page of fewer than 100 items) at offset `n` from `start` guarantees the loop does not
run out of fuel once the fuel exceeds `n`. -/
theorem fetchLoop_ne_outOfFuel (pages : Nat → PageResult) :
    ∀ (n fuel start : Nat) (acc : List GitHubRepo) (req : List Nat),
      n < fuel → isStopPage (pages (start + n)) = true →
      (fetchLoop pages fuel start acc req).1 ≠ FetchOutcome.outOfFuel := by
  intro n
  induction n with
  | zero =>
    intro fuel start acc req hf hstop
    obtain ⟨f, rfl⟩ : ∃ f, fuel = f + 1 := ⟨fuel - 1, by omega⟩
    rw [Nat.add_zero] at hstop
    cases hp : pages start with
    | httpError s => simp [fetchLoop, hp]
    | parseFailure => simp [fetchLoop, hp]
    | ok repos =>
      rw [hp] at hstop
      simp only [isStopPage, decide_eq_true_eq] at hstop
      simp [fetchLoop, hp, hstop]
  | succ k ih =>
    intro fuel start acc req hf hstop
    obtain ⟨f, rfl⟩ : ∃ f, fuel = f + 1 := ⟨fuel - 1, by omega⟩
    cases hp : pages start with
    | httpError s => simp [fetchLoop, hp]
    | parseFailure => simp [fetchLoop, hp]
    | ok repos =>
      by_cases h100 : repos.length < 100
      · simp [fetchLoop, hp, h100]
      · have hred : (fetchLoop pages (f + 1) start acc req).1 =
            (fetchLoop pages f (start + 1) (acc ++ repos) (req ++ [start])).1 := by
          simp [fetchLoop, hp, h100]
        rw [hred]
        have hstop' : isStopPage (pages (start + 1 + k)) = true := by
          have e : start + 1 + k = start + (k + 1) := by omega
          rw [e]; exact hstop
        exact ih f (start + 1) (acc ++ repos) (req ++ [start]) (by omega) hstop'

/-- Shape of the requested pages: the loop requests a consecutive block of page numbers
starting at `start`, and every requested page except possibly the last returned a full
page (at least 100 items). -/
theorem fetchLoop_requested_range (pages : Nat → PageResult) :
    ∀ (fuel start : Nat) (acc : List GitHubRepo) (req : List Nat),
      ∃ m, (fetchLoop pages fuel start acc req).2 = req ++ List.range' start m ∧
        ∀ i, i + 1 < m → ∃ l, pages (start + i) = PageResult.ok l ∧ 100 ≤ l.length := by
  intro fuel
  induction fuel with
  | zero =>
    intro start acc req
    exact ⟨0, by simp [fetchLoop], fun i hi => absurd hi (by omega)⟩
  | succ f ih =>
    intro start acc req
    cases hp : pages start with
    | httpError s =>
      exact ⟨1, by simp [fetchLoop, hp, List.range'_one],
        fun i hi => absurd hi (by omega)⟩
    | parseFailure =>
      exact ⟨1, by simp [fetchLoop, hp, List.range'_one],
        fun i hi => absurd hi (by omega)⟩
    | ok repos =>
      by_cases h100 : repos.length < 100
      · exact ⟨1, by simp [fetchLoop, hp, h100, List.range'_one],
          fun i hi => absurd hi (by omega)⟩
      · obtain ⟨m, hm, hprop⟩ := ih (start + 1) (acc ++ repos) (req ++ [start])
        refine ⟨m + 1, ?_, ?_⟩
        · have hred : (fetchLoop pages (f + 1) start acc req).2 =
              (fetchLoop pages f (start + 1) (acc ++ repos) (req ++ [start])).2 := by
            simp [fetchLoop, hp, h100]
          rw [hred, hm, List.range'_succ]
          simp
        · intro i hi
          cases i with
          | zero => exact ⟨repos, by simpa using hp, by omega⟩
          | succ j =>
            obtain ⟨l, hl, hlen⟩ := hprop j (by omega)
            refine ⟨l, ?_, hlen⟩
            have e : start + (j + 1) = start + 1 + j := by omega
            rw [e]; exact hl

/-- C4: the pagination loop terminates for every response sequence in which some page
stops it (a non-ok response, a parse failure, or a page of fewer than 100 repositories):
with fuel beyond that page's offset the loop never runs out of fuel.  Moreover the loop
requests page `p + 1` only when it also requested page `p` and page `p` returned 100 or
more items. -/
theorem fetchRecentRepos_terminates_sequential (pages : Nat → PageResult) (n fuel : Nat)
    (hstop : isStopPage (pages (1 + n)) = true) (hfuel : n < fuel) :
    (fetchRecentRepos pages fuel).1 ≠ FetchOutcome.outOfFuel ∧
    ∀ p, 1 ≤ p → p + 1 ∈ (fetchRecentRepos pages fuel).2 →
      p ∈ (fetchRecentRepos pages fuel).2 ∧
        ∃ l, pages p = PageResult.ok l ∧ 100 ≤ l.length := by
  constructor
  · exact fetchLoop_ne_outOfFuel pages n fuel 1 [] [] hfuel hstop
  · intro p hp hmem
    obtain ⟨m, hm, hprop⟩ := fetchLoop_requested_range pages fuel 1 [] []
    rw [show (fetchRecentRepos pages fuel).2 = (fetchLoop pages fuel 1 [] []).2 from rfl,
      hm] at hmem ⊢
    simp only [List.nil_append] at hmem ⊢
    rw [List.mem_range'_1] at hmem
    constructor
    · rw [List.mem_range'_1]
      omega
    · obtain ⟨l, hl, hlen⟩ := hprop (p - 1) (by omega)
      have e : 1 + (p - 1) = p := by omega
      rw [e] at hl
      exact ⟨l, hl, hlen⟩

/-- Witness for C4 at a concrete input: the very first page fails with HTTP 500, so the
loop stops at once. -/
theorem fetchRecentRepos_terminates_sequential_witness :
    (fetchRecentRepos (fun _ => PageResult.httpError 500) 1).1 ≠
      FetchOutcome.outOfFuel :=
  (fetchRecentRepos_terminates_sequential (fun _ => PageResult.httpError 500) 0 1
    (by decide) (by decide)).1
